import Mathlib

/-
  Verification of the order-fulfillment ledger and reconciliation engine of the
  shop-bot repository (src/shop_bot).  The Python source is shallowly embedded:
  SQLite tables become finite maps, each database function becomes a pure Lean
  function from its arguments and the table state to its Python return value
  together with the new table state, and the async orchestrator becomes a pure
  function producing the list of observable effects it performs.  Machine floats
  of the source are modelled as exact rationals; SQL transactions that are run
  under BEGIN IMMEDIATE are modelled as single atomic steps, so a concurrent
  history is an arbitrary interleaving (a list) of atomic calls.
-/

set_option maxRecDepth 4000

namespace ShopBot

/-- Python `(s or "").strip()`: trims whitespace from both ends.
Implemented by dropping whitespace characters from the front and the back of
the character list (ASCII whitespace; enough for the claims). -/
def pyStrip (s : String) : String :=
  String.mk (((s.data.dropWhile Char.isWhitespace).reverse.dropWhile Char.isWhitespace).reverse)

/-- Python `s.lower()` restricted to ASCII letters (the source only compares
against ASCII or already-lowercase literals). -/
def pyLower (s : String) : String := String.mk (s.data.map Char.toLower)

/-- Python truthiness of an optional string followed by `or`:
`(a or b or "")` takes the first non-empty, non-null string. -/
def pyOrStr (a b : Option String) : String :=
  let sa := a.getD ""
  if sa = "" then b.getD "" else sa

/-- Status column of `pending_transactions`: only the strings
`pending` and `paid` are ever stored by the source. -/
inductive PStatus where
  | pending
  | paid
  deriving Repr, DecidableEq

/-- One row of the `pending_transactions` table (database.py, `_ensure_pending_tables`):
`payment_id` is the primary key (the map key below), `metadata` holds the
`json.dumps` blob as an opaque string, timestamps are abstract ticks. -/
structure PendingRow where
  user_id : Int
  amount_rub : Option Rat
  metadata : String
  status : PStatus
  created_at : Nat
  updated_at : Nat
  deriving Repr, DecidableEq

/-- The `pending_transactions` table, keyed by `payment_id`. -/
def PendingDB : Type := String → Option PendingRow

/-- Writing one row of the table (INSERT or UPDATE at a primary key). -/
def PendingDB.set (db : PendingDB) (k : String) (r : PendingRow) : PendingDB :=
  fun q => if q = k then some r else db q

/-- Shallow embedding of `database.create_payload_pending` (database.py:1778).
Strips the id, rejects an empty id, then performs
`INSERT ... ON CONFLICT(payment_id) DO UPDATE SET user_id, amount_rub, metadata,
updated_at ... WHERE pending_transactions.status = 'pending'`:
a fresh row is inserted as `pending`; an existing row is overwritten only while
its status is still `pending`; a `paid` row is left untouched.  The function
returns True whenever the statement ran (rowcount is not consulted). -/
def create_payload_pending (payment_id : String) (user_id : Int) (amount_rub : Option Rat)
    (metadata : String) (now : Nat) (db : PendingDB) : Bool × PendingDB :=
  let pid := pyStrip payment_id
  if pid = "" then (false, db)
  else
    match db pid with
    | none =>
        (true, db.set pid
          { user_id := user_id, amount_rub := amount_rub, metadata := metadata,
            status := PStatus.pending, created_at := now, updated_at := now })
    | some r =>
        if r.status = PStatus.pending then
          (true, db.set pid
            { r with user_id := user_id, amount_rub := amount_rub,
                     metadata := metadata, updated_at := now })
        else (true, db)

/-- Shallow embedding of `database.find_and_complete_pending_transaction`
(database.py:1900).  The source wraps SELECT-then-conditional-UPDATE in one
`BEGIN IMMEDIATE` transaction, so the whole call is one atomic step here; the
`rowcount != 1` branch of the source is unreachable inside the exclusive
transaction once the SELECT has seen the pending row.  Returns the metadata
blob captured before the update, or none when the id is empty, unknown, or the
row is no longer `pending`. -/
def find_and_complete_pending_transaction (payment_id : String) (now : Nat)
    (db : PendingDB) : Option String × PendingDB :=
  let pid := pyStrip payment_id
  if pid = "" then (none, db)
  else
    match db pid with
    | none => (none, db)
    | some r =>
        if r.status = PStatus.pending then
          (some r.metadata, db.set pid { r with status := PStatus.paid, updated_at := now })
        else (none, db)

/-- A history of repeated/concurrent `find_and_complete_pending_transaction`
calls for one payment id: `BEGIN IMMEDIATE` linearizes them, so any concurrent
execution is some sequence of atomic calls (one clock tick per call). -/
def runCompletes (payment_id : String) : List Nat → PendingDB → List (Option String) × PendingDB
  | [], db => ([], db)
  | t :: ts, db =>
      let step := find_and_complete_pending_transaction payment_id t db
      let rest := runCompletes payment_id ts step.2
      (step.1 :: rest.1, rest.2)

/-- Number of non-none results in a history. -/
def countSome : List (Option String) → Nat
  | [] => 0
  | o :: l => (if o.isSome then 1 else 0) + countSome l

/-- The core of the fulfillment idempotency guard,
`database.claim_processed_payment` (database.py:2191) after its initial strip:
`INSERT OR IGNORE INTO processed_payments`, reporting whether a row was
actually inserted.  The table is the list of already-claimed ids. -/
def claim_core (pid : String) (s : List String) : Bool × List String :=
  if pid = "" then (false, s)
  else if pid ∈ s then (false, s)
  else (true, pid :: s)

/-- Shallow embedding of `database.claim_processed_payment` (database.py:2191):
strips the id, then insert-if-absent into the append-only processed set;
True exactly when this call inserted the id. -/
def claim_processed_payment (payment_id : String) (s : List String) : Bool × List String :=
  claim_core (pyStrip payment_id) s

theorem countSome_map_none (ts : List Nat) :
    countSome (ts.map fun _ => (none : Option String)) = 0 := by
  induction ts with
  | nil => rfl
  | cons t ts ih => simpa [countSome] using ih

theorem countSome_replicate_none (n : Nat) :
    countSome (List.replicate n (none : Option String)) = 0 := by
  induction n with
  | zero => rfl
  | succ n ih => simpa [countSome, List.replicate] using ih

theorem find_complete_not_pending (pid : String) (now : Nat) (db : PendingDB)
    (h : ∀ r, db (pyStrip pid) = some r → r.status ≠ PStatus.pending) :
    find_and_complete_pending_transaction pid now db = (none, db) := by
  unfold find_and_complete_pending_transaction
  by_cases hp : pyStrip pid = ""
  · simp [hp]
  · simp only [hp, if_false]
    cases hdb : db (pyStrip pid) with
    | none => rfl
    | some r => simp [h r hdb]

theorem find_complete_pending (pid : String) (now : Nat) (db : PendingDB) (r : PendingRow)
    (hp : pyStrip pid ≠ "") (hdb : db (pyStrip pid) = some r)
    (hs : r.status = PStatus.pending) :
    find_and_complete_pending_transaction pid now db =
      (some r.metadata,
       db.set (pyStrip pid) { r with status := PStatus.paid, updated_at := now }) := by
  unfold find_and_complete_pending_transaction
  simp [hp, hdb, hs]

theorem runCompletes_all_none (pid : String) (ts : List Nat) (db : PendingDB)
    (h : ∀ r, db (pyStrip pid) = some r → r.status ≠ PStatus.pending) :
    runCompletes pid ts db = (ts.map fun _ => none, db) := by
  induction ts with
  | nil => rfl
  | cons t ts ih => simp [runCompletes, find_complete_not_pending pid t db h, ih]

theorem set_paid_not_pending (db : PendingDB) (p : String) (r : PendingRow) (now : Nat) :
    ∀ r2, (db.set p { r with status := PStatus.paid, updated_at := now }) p = some r2 →
      r2.status ≠ PStatus.pending := by
  intro r2 h2
  simp [PendingDB.set] at h2
  rw [← h2]
  simp

theorem countSome_runCompletes_le_one (pid : String) (ts : List Nat) (db : PendingDB) :
    countSome (runCompletes pid ts db).1 ≤ 1 := by
  induction ts generalizing db with
  | nil => simp [runCompletes, countSome]
  | cons t ts ih =>
      by_cases hp : pyStrip pid = ""
      · have hstep : find_and_complete_pending_transaction pid t db = (none, db) := by
          unfold find_and_complete_pending_transaction
          simp [hp]
        simp [runCompletes, hstep, countSome]
        exact ih db
      · cases hdb : db (pyStrip pid) with
        | none =>
            have hstep : find_and_complete_pending_transaction pid t db = (none, db) := by
              apply find_complete_not_pending
              intro r hr
              rw [hdb] at hr
              cases hr
            simp [runCompletes, hstep, countSome]
            exact ih db
        | some r =>
            by_cases hs : r.status = PStatus.pending
            · have hstep := find_complete_pending pid t db r hp hdb hs
              have hrest := runCompletes_all_none pid ts
                (db.set (pyStrip pid) { r with status := PStatus.paid, updated_at := t })
                (set_paid_not_pending db (pyStrip pid) r t)
              simp [runCompletes, hstep, hrest, countSome, countSome_map_none,
                countSome_replicate_none]
            · have hstep : find_and_complete_pending_transaction pid t db = (none, db) := by
                apply find_complete_not_pending
                intro r2 hr2
                rw [hdb] at hr2
                cases hr2
                exact hs
              simp [runCompletes, hstep, countSome]
              exact ih db

/-- C1 (exactly-once completion): over any linearized history of repeated or
concurrent `find_and_complete_pending_transaction` calls for one payment id,
(1) at most one call returns a non-none metadata result; (2) when the id is
unknown, or its row is already `paid`, every call returns none; (3) when the
row is still `pending`, the first call of the history receives exactly the
metadata the row holds at that moment of completion and every later call
returns none. -/
theorem C1_exactly_once_completion (pid : String) (ts : List Nat) (db : PendingDB) :
    countSome (runCompletes pid ts db).1 ≤ 1
    ∧ ((∀ r, db (pyStrip pid) = some r → r.status ≠ PStatus.pending) →
        (runCompletes pid ts db).1 = ts.map fun _ => none)
    ∧ (∀ r t rest, db (pyStrip pid) = some r → r.status = PStatus.pending →
        pyStrip pid ≠ "" → ts = t :: rest →
        (runCompletes pid ts db).1 = some r.metadata :: (rest.map fun _ => none)) := by
  refine ⟨countSome_runCompletes_le_one pid ts db, ?_, ?_⟩
  · intro h
    rw [runCompletes_all_none pid ts db h]
  · intro r t rest hdb hs hp hts
    subst hts
    have hstep := find_complete_pending pid t db r hp hdb hs
    have hrest := runCompletes_all_none pid rest
      (db.set (pyStrip pid) { r with status := PStatus.paid, updated_at := t })
      (set_paid_not_pending db (pyStrip pid) r t)
    simp [runCompletes, hstep, hrest]

def pendRow0 : PendingRow :=
  { user_id := 42, amount_rub := some 300, metadata := "m0",
    status := PStatus.pending, created_at := 0, updated_at := 0 }

def pendDB0 : PendingDB := fun q => if q = "p1" then some pendRow0 else none

/-- Witness for C1 at a concrete pending row and a two-call history:
the first call returns the stored metadata, the second returns none. -/
theorem C1_exactly_once_completion_witness :
    countSome (runCompletes "p1" [1, 2] pendDB0).1 ≤ 1
    ∧ (runCompletes "p1" [1, 2] pendDB0).1 = [some "m0", none] := by
  have h := C1_exactly_once_completion "p1" [1, 2] pendDB0
  refine ⟨h.1, ?_⟩
  have h3 := h.2.2 pendRow0 1 [2] (by decide) (by decide) (by decide) rfl
  simpa using h3

/-- C4 (no premature ledger revival): `create_payload_pending` on an id whose
row is already `paid` changes nothing at all (status, amount, metadata and
both timestamps of that row included); only a row still `pending` has its
user, amount, metadata and updated_at overwritten (status and created_at are
kept). -/
theorem C4_no_premature_ledger_revival (pid : String) (uid : Int) (amt : Option Rat)
    (meta : String) (now : Nat) (db : PendingDB) :
    (∀ r, db (pyStrip pid) = some r → r.status = PStatus.paid →
        (create_payload_pending pid uid amt meta now db).2 = db)
    ∧ (∀ r, db (pyStrip pid) = some r → r.status = PStatus.pending → pyStrip pid ≠ "" →
        (create_payload_pending pid uid amt meta now db).2 =
          db.set (pyStrip pid)
            { r with user_id := uid, amount_rub := amt, metadata := meta, updated_at := now }) := by
  constructor
  · intro r hdb hpaid
    unfold create_payload_pending
    by_cases hp : pyStrip pid = ""
    · simp [hp]
    · simp [hp, hdb, hpaid]
  · intro r hdb hpend hp
    unfold create_payload_pending
    simp [hp, hdb, hpend]

def pendRowPaid : PendingRow :=
  { user_id := 42, amount_rub := some 300, metadata := "m0",
    status := PStatus.paid, created_at := 0, updated_at := 7 }

def pendDBPaid : PendingDB := fun q => if q = "p1" then some pendRowPaid else none

/-- Witness for C4: refreshing an intent whose row is already paid leaves the
table untouched. -/
theorem C4_no_premature_ledger_revival_witness :
    (create_payload_pending "p1" 99 (some 500) "m9" 8 pendDBPaid).2 = pendDBPaid :=
  (C4_no_premature_ledger_revival "p1" 99 (some 500) "m9" 8 pendDBPaid).1
    pendRowPaid (by decide) (by decide)

/-- C3 counterexample: the payment id consisting of one space is a non-empty
string, yet the very first claim for it returns false and inserts nothing,
because `claim_processed_payment` strips whitespace before the insert-if-absent
and rejects ids that become empty. -/
theorem C3_counterexample :
    (" " : String) ≠ "" ∧ claim_processed_payment " " [] = (false, []) := by
  constructor
  · decide
  · decide

/-- C3 (amended): for every payment id that is non-empty after trimming
whitespace, the first call to `claim_processed_payment` returns true and
inserts the trimmed id into the processed-payments set; every call made when
the trimmed id is already in the set returns false and leaves the set
unchanged. -/
theorem C3_claim_exactly_once (pid : String) (s : List String)
    (hne : pyStrip pid ≠ "") (hnew : pyStrip pid ∉ s) :
    claim_processed_payment pid s = (true, pyStrip pid :: s)
    ∧ ∀ s2 : List String, pyStrip pid ∈ s2 →
        claim_processed_payment pid s2 = (false, s2) := by
  constructor
  · unfold claim_processed_payment claim_core
    simp [hne, hnew]
  · intro s2 hmem
    unfold claim_processed_payment claim_core
    simp [hne, hmem]

/-- Witness for C3 (amended): first claim of p7 inserts and returns true, the
repeated claim returns false and changes nothing. -/
theorem C3_claim_exactly_once_witness :
    claim_processed_payment "p7" [] = (true, ["p7"])
    ∧ claim_processed_payment "p7" ["p7"] = (false, ["p7"]) := by
  have h := C3_claim_exactly_once "p7" [] (by decide) (by decide)
  have hps : pyStrip "p7" = "p7" := by decide
  constructor
  · rw [h.1, hps]
  · exact h.2 ["p7"] (by decide)

/-- The `users` table restricted to what `deduct_from_balance` touches:
key = telegram_id, value = the NULL-able `balance` column
(none = no row, some none = row with NULL balance, some (some b) = balance b). -/
def UsersDB : Type := Int → Option (Option Rat)

/-- Writing the balance column of one user row. -/
def UsersDB.setBal (db : UsersDB) (uid : Int) (b : Option Rat) : UsersDB :=
  fun q => if q = uid then some b else db q

/-- Shallow embedding of `database.deduct_from_balance` (database.py:3145).
Amounts of at most 0 succeed without touching the table.  Otherwise, inside one
`BEGIN IMMEDIATE` transaction: read the balance (missing row or NULL reads as
0.0), roll back with False when it is below the amount, else
`UPDATE users SET balance = COALESCE(balance, 0) - amount` and return True.
Floats are modelled as exact rationals. -/
def deduct_from_balance (user_id : Int) (amount : Rat) (db : UsersDB) : Bool × UsersDB :=
  if amount ≤ 0 then (true, db)
  else
    let current : Rat :=
      match db user_id with
      | some (some b) => b
      | some none => 0
      | none => 0
    if current < amount then (false, db)
    else
      match db user_id with
      | some b0 => (true, db.setBal user_id (some (b0.getD 0 - amount)))
      | none => (true, db)

/-- C9 (balance deduction safety): a non-positive amount returns true and
changes nothing; a positive amount either fails with the table unchanged, or
the user row holds a balance of at least the amount, exactly the amount is
subtracted, true is returned, and the new balance is still non-negative. -/
theorem C9_deduct_balance_safety (uid : Int) (amount : Rat) (db : UsersDB) :
    (amount ≤ 0 → deduct_from_balance uid amount db = (true, db))
    ∧ (0 < amount →
        deduct_from_balance uid amount db = (false, db)
        ∨ ∃ b : Rat, db uid = some (some b) ∧ amount ≤ b ∧ 0 ≤ b - amount ∧
            deduct_from_balance uid amount db = (true, db.setBal uid (some (b - amount)))) := by
  constructor
  · intro h
    unfold deduct_from_balance
    simp [h]
  · intro hpos
    have hneg : ¬ amount ≤ 0 := not_le.mpr hpos
    unfold deduct_from_balance
    cases hdb : db uid with
    | none => simp [hneg, hdb, hpos]
    | some b0 =>
        cases b0 with
        | none => simp [hneg, hdb, hpos]
        | some b =>
            by_cases hlt : b < amount
            · simp [hneg, hdb, hlt]
            · right
              refine ⟨b, rfl, not_lt.mp hlt, by linarith [not_lt.mp hlt], ?_⟩
              simp [hneg, hdb, hlt]

def usersDB0 : UsersDB := fun q => if q = 7 then some (some 100) else none

/-- Witness for C9: a non-positive deduction is a no-op that succeeds, and a
positive deduction from a sufficient balance subtracts exactly the amount. -/
theorem C9_deduct_balance_safety_witness :
    deduct_from_balance 7 (-1) usersDB0 = (true, usersDB0)
    ∧ (deduct_from_balance 7 30 usersDB0 = (false, usersDB0)
       ∨ ∃ b : Rat, usersDB0 7 = some (some b) ∧ (30 : Rat) ≤ b ∧ 0 ≤ b - 30 ∧
           deduct_from_balance 7 30 usersDB0 = (true, usersDB0.setBal 7 (some (b - 30)))) :=
  ⟨(C9_deduct_balance_safety 7 (-1) usersDB0).1 (by norm_num),
   (C9_deduct_balance_safety 7 30 usersDB0).2 (by norm_num)⟩

/-- Default partner commission percent (database.py:4424). -/
def FRANCHISE_PERCENT_DEFAULT : Rat := 35

/-- Python `round(x, 2)` on the commission amount; the half-even float rounding
of the source is abstracted to exact rational rounding at two decimals (the
claims use only that the result is deterministic and positive-or-not). -/
def round2 (q : Rat) : Rat := (round (q * 100) : Int) / 100

/-- Shallow embedding of `database._is_card_payment_method` (database.py:4573):
normalizes the method string and accepts only the configured card-like
providers; empty, stored-balance and unknown methods are rejected. -/
def _is_card_payment_method (method : Option String) : Bool :=
  let m := pyLower (pyStrip (method.getD ""))
  if m = "" then false
  else if m = "balance" ∨ m = "баланс" then false
  else decide (m ∈ ["yookassa", "platega", "heleket", "yoomoney"])

/-- The `partner_commissions` table reduced to its UNIQUE(bot_id, payment_id)
key set (database.py:364); the non-key columns never influence control flow. -/
abbrev CommissionsDB : Type := List (Int × String)

/-- Shallow embedding of `database.accrue_partner_commission`
(database.py:4583).  Validation in source order: positive bot id, card-like
method, non-empty stripped payment id, positive amount, positive percent
(default 35), positive rounded commission; then
`INSERT OR IGNORE INTO partner_commissions` keyed (bot_id, payment_id),
returning whether a row was inserted.  The int()/float() coercions of the
source are pre-applied by the typed signature. -/
def accrue_partner_commission (bot_id : Int) (payment_id : String) (user_id : Int)
    (amount_rub : Rat) (payment_method : Option String) (percent : Option Rat)
    (db : CommissionsDB) : Bool × CommissionsDB :=
  if bot_id ≤ 0 then (false, db)
  else if ¬ _is_card_payment_method payment_method then (false, db)
  else
    let pid := pyStrip payment_id
    if pid = "" then (false, db)
    else if amount_rub ≤ 0 then (false, db)
    else
      let p := percent.getD FRANCHISE_PERCENT_DEFAULT
      if p ≤ 0 then (false, db)
      else
        let com := round2 (amount_rub * p / 100)
        if com ≤ 0 then (false, db)
        else if (bot_id, pid) ∈ db then (false, db)
        else (true, (bot_id, pid) :: db)

/-- C7 (idempotent commission accrual): repeating an `accrue_partner_commission`
call with the same arguments leaves the commission table exactly as after the
first call and the repeated call inserts nothing and returns false. -/
theorem C7_idempotent_commission_accrual (b : Int) (pid : String) (uid : Int)
    (amt : Rat) (pm : Option String) (pct : Option Rat) (db : CommissionsDB) :
    accrue_partner_commission b pid uid amt pm pct
        (accrue_partner_commission b pid uid amt pm pct db).2
      = (false, (accrue_partner_commission b pid uid amt pm pct db).2) := by
  unfold accrue_partner_commission
  by_cases h1 : b ≤ 0
  · simp [h1]
  · by_cases h2 : _is_card_payment_method pm
    · by_cases h3 : pyStrip pid = ""
      · simp [h1, h2, h3]
      · by_cases h4 : amt ≤ 0
        · simp [h1, h2, h3, h4]
        · by_cases h5 : pct.getD FRANCHISE_PERCENT_DEFAULT ≤ 0
          · simp [h1, h2, h3, h4, h5]
          · by_cases h6 : round2 (amt * pct.getD FRANCHISE_PERCENT_DEFAULT / 100) ≤ 0
            · simp [h1, h2, h3, h4, h5, h6]
            · by_cases h7 : (b, pyStrip pid) ∈ db
              · simp [h1, h2, h3, h4, h5, h6, h7]
              · simp [h1, h2, h3, h4, h5, h6, h7]
    · simp [h1, h2]

/-- The amount-related keys a TON transaction metadata blob may carry
(`expected_amount_ton`, `ton_amount`, `amount_ton`).  Each field models one
`meta.get(...)` result: none = key absent or JSON null, some none = present but
`float()` raises on it, some (some q) = present and converts to the float q. -/
structure TonMeta where
  expected_amount_ton : Option (Option Rat)
  ton_amount : Option (Option Rat)
  amount_ton : Option (Option Rat)
  deriving Repr, DecidableEq

/-- One row of the `transactions` table as read and written by
`find_and_complete_ton_transaction`; `metadata` is the parsed blob (the JSON
round-trip is abstracted), `status` is the raw TEXT column. -/
structure TonRow where
  user_id : Int
  status : String
  amount_rub : Rat
  metadata : TonMeta
  amount_currency : Option Rat
  currency_name : Option String
  payment_method : Option String
  deriving Repr, DecidableEq

/-- The `transactions` table keyed by `payment_id`. -/
def TonDB : Type := String → Option TonRow

/-- Writing one row of the `transactions` table. -/
def TonDB.set (db : TonDB) (k : String) (r : TonRow) : TonDB :=
  fun q => if q = k then some r else db q

/-- The expected-amount lookup chain of `find_and_complete_ton_transaction`:
`expected_amount_ton`, then `ton_amount`, then `amount_ton`;
the first key whose `meta.get` is non-None wins. -/
def ton_expected_raw (m : TonMeta) : Option (Option Rat) :=
  match m.expected_amount_ton with
  | some v => some v
  | none =>
      match m.ton_amount with
      | some v => some v
      | none => m.amount_ton

/-- Shallow embedding of `database.find_and_complete_ton_transaction`
(database.py:3316).  Inside one `BEGIN IMMEDIATE` transaction: select the still
pending row, read the expected TON amount from its metadata, and when an
expected amount converts to a float enforce
`abs(got - expected) <= max(0.001, expected * 0.01)` (a missing or mismatched
reported amount rolls back and returns None); on success set status = paid,
record the paid amount and the TON method, and return the metadata.  The
incoming `amount_ton` is modelled as `float(amount_ton)` already attempted:
none = the conversion raised.  As in the pending-ledger embedding the
`rowcount != 1` branch is unreachable inside the exclusive transaction. -/
def find_and_complete_ton_transaction (payment_id : String) (amount_ton : Option Rat)
    (db : TonDB) : Option TonMeta × TonDB :=
  let pid := pyStrip payment_id
  if pid = "" then (none, db)
  else
    match db pid with
    | none => (none, db)
    | some row =>
        if row.status ≠ "pending" then (none, db)
        else
          let paidRow : TonRow :=
            { row with status := "paid", amount_currency := amount_ton,
                       currency_name := some "TON", payment_method := some "TON" }
          match (ton_expected_raw row.metadata).bind id with
          | some e =>
              match amount_ton with
              | none => (none, db)
              | some a =>
                  let tol := max (1 / 1000 : Rat) (e * (1 / 100))
                  if |a - e| > tol then (none, db)
                  else (some row.metadata, db.set pid paidRow)
          | none => (some row.metadata, db.set pid paidRow)

/-- C10 (TON completion amount tolerance): for a pending transaction whose
metadata records an expected TON amount e, the call marks the row paid and
returns the metadata exactly when a reported amount a is present with
|a - e| <= max(0.001, e/100); a missing or out-of-tolerance amount returns
none and leaves the table (in particular the pending status) unchanged. -/
theorem C10_ton_amount_tolerance (pid : String) (amt : Option Rat) (db : TonDB)
    (row : TonRow) (e : Rat)
    (hdb : db (pyStrip pid) = some row) (hst : row.status = "pending")
    (hexp : (ton_expected_raw row.metadata).bind id = some e)
    (hpid : pyStrip pid ≠ "") :
    (∀ a : Rat, amt = some a → |a - e| ≤ max (1 / 1000 : Rat) (e * (1 / 100)) →
        find_and_complete_ton_transaction pid amt db =
          (some row.metadata,
           db.set (pyStrip pid)
             { row with status := "paid", amount_currency := amt,
                        currency_name := some "TON", payment_method := some "TON" }))
    ∧ ((amt = none ∨ ∃ a : Rat, amt = some a ∧ max (1 / 1000 : Rat) (e * (1 / 100)) < |a - e|) →
        find_and_complete_ton_transaction pid amt db = (none, db)) := by
  have hexp2 : ((ton_expected_raw row.metadata).bind fun a => a) = some e := hexp
  constructor
  · intro a ha htol
    subst ha
    have hno : ¬ ((1 / 1000 : Rat) < |a - e| ∧ e * (1 / 100) < |a - e|) := by
      rintro ⟨h1, h2⟩
      exact absurd htol (not_le.mpr (max_lt h1 h2))
    unfold find_and_complete_ton_transaction
    simp [hpid, hdb, hst, hexp2, hno]
    intro h1
    rcases le_max_iff.mp htol with hl | hr
    · exact absurd h1 (not_lt.mpr (by simpa [one_div] using hl))
    · simpa [one_div] using hr
  · intro hbad
    unfold find_and_complete_ton_transaction
    rcases hbad with hnone | ⟨a, ha, htol⟩
    · subst hnone
      simp [hpid, hdb, hst, hexp2]
    · subst ha
      have hyes : (1 / 1000 : Rat) < |a - e| ∧ e * (1 / 100) < |a - e| :=
        ⟨lt_of_le_of_lt (le_max_left _ _) htol, lt_of_le_of_lt (le_max_right _ _) htol⟩
      simp [hpid, hdb, hst, hexp2]
      exact ⟨by simpa [one_div] using hyes.1, by simpa [one_div] using hyes.2⟩

def tonRow0 : TonRow :=
  { user_id := 5, status := "pending", amount_rub := 300,
    metadata := { expected_amount_ton := some (some 10), ton_amount := none, amount_ton := none },
    amount_currency := none, currency_name := none, payment_method := none }

def tonDB0 : TonDB := fun q => if q = "t1" then some tonRow0 else none

/-- Witness for C10 at expected amount 10 (tolerance 0.1): a report of 10.05 is
accepted and marks the row paid, a report of 12 is rejected with the table
unchanged. -/
theorem C10_ton_amount_tolerance_witness :
    find_and_complete_ton_transaction "t1" (some (1005 / 100)) tonDB0 =
      (some tonRow0.metadata,
       tonDB0.set "t1"
         { tonRow0 with status := "paid", amount_currency := some (1005 / 100),
                        currency_name := some "TON", payment_method := some "TON" })
    ∧ find_and_complete_ton_transaction "t1" (some 12) tonDB0 = (none, tonDB0) := by
  have hdb : tonDB0 (pyStrip "t1") = some tonRow0 := by decide
  have hexp : (ton_expected_raw tonRow0.metadata).bind id = some 10 := by decide
  have habs : |(1005 / 100 : Rat) - 10| = 1 / 20 := by
    rw [show (1005 / 100 : Rat) - 10 = 1 / 20 by norm_num]
    exact abs_of_nonneg (by norm_num)
  have htol : |(1005 / 100 : Rat) - 10| ≤ max (1 / 1000 : Rat) ((10 : Rat) * (1 / 100)) := by
    rw [habs]
    exact le_max_of_le_right (by norm_num)
  have h1 := (C10_ton_amount_tolerance "t1" (some (1005 / 100)) tonDB0 tonRow0 10
      hdb (by decide) hexp (by decide)).1 (1005 / 100) rfl htol
  have habs2 : |(12 : Rat) - 10| = 2 := by
    rw [show (12 : Rat) - 10 = 2 by norm_num]
    exact abs_of_nonneg (by norm_num)
  have htol2 : max (1 / 1000 : Rat) ((10 : Rat) * (1 / 100)) < |(12 : Rat) - 10| := by
    rw [habs2]
    exact max_lt (by norm_num) (by norm_num)
  have h2 := (C10_ton_amount_tolerance "t1" (some 12) tonDB0 tonRow0 10
      hdb (by decide) hexp (by decide)).2 (Or.inr ⟨12, rfl, htol2⟩)
  have hps : pyStrip "t1" = "t1" := by decide
  rw [hps] at h1
  exact ⟨h1, h2⟩

/-- One remote existence check of the reconciliation loop
(`sync_user_keys_with_remnawave`, handlers.py:3182): the Provisioning Client
reports the credential present, missing, or fails (exception or unknown). -/
inductive RemoteObs where
  | present
  | missing
  | err
  deriving Repr, DecidableEq

/-- The reconciliation grace window: `timedelta(hours=24)` in seconds. -/
def graceSeconds : Nat := 86400

/-- Per-credential reconciliation state: none = the key row has been deleted
(it no longer appears in `get_user_keys`); some stamp = the row exists with
`missing_from_server_at` = stamp (a parsed UTC timestamp in seconds). -/
abbrev KeyRec : Type := Option (Option Nat)

/-- One step of the reconciliation loop for one credential
(`sync_user_keys_with_remnawave`, handlers.py:3182), at clock time `now`:
an exception or unknown answer changes nothing; `present` clears
`missing_from_server_at` when it was set; `missing` deletes the row when the
recorded stamp is more than 24 hours old and otherwise (also when no stamp is
recorded yet) writes `missing_from_server_at := now`.  A deleted row is no
longer listed, so every later step leaves it deleted. -/
def sync_step (now : Nat) (obs : RemoteObs) (st : KeyRec) : KeyRec :=
  match st with
  | none => none
  | some stamp =>
      match obs with
      | RemoteObs.err => some stamp
      | RemoteObs.present => if stamp.isSome then some none else some stamp
      | RemoteObs.missing =>
          match stamp with
          | some m => if m + graceSeconds < now then none else some (some now)
          | none => some (some now)

/-- A whole reconciliation history for one credential: the checks in time
order, each with the remote observation it produced. -/
def run_sync (checks : List (Nat × RemoteObs)) (st : KeyRec) : KeyRec :=
  checks.foldl (fun s c => sync_step c.1 c.2 s) st

/-- C6 counterexample: checks at hours 0, 13 and 26 all report the credential
missing — every check from T = 0 through past T + 24h — yet the row is NOT
deleted: each in-window missing observation rewrites `missing_from_server_at`
to its own time, so the 24-hour test compares against the previous missing
check instead of the first one, and the row survives with the stamp at hour 26. -/
theorem C6_counterexample :
    run_sync [(0, RemoteObs.missing), (46800, RemoteObs.missing), (93600, RemoteObs.missing)]
        (some none)
      = some (some 93600) := by
  decide

/-- C6 (amended): (1) a credential reported missing once and then present again
(in particular within the grace window) is not deleted and its mark is cleared;
(2) a missing report while the recorded mark is at most 24 hours old refreshes
the mark to the time of that report and does not delete; (3) a missing report
while the recorded mark is more than 24 hours old deletes the row; (4) a
failed/ambiguous check never changes the state; (5) a deleted row stays
deleted, so deletion happens at most once.  Hence deletion requires a gap of
more than 24 hours between consecutive missing observations, not merely 24
hours of continuously observed absence. -/
theorem C6_reconciliation_hysteresis (t0 t1 : Nat) (st : KeyRec) :
    (t1 ≤ t0 + graceSeconds →
        sync_step t1 RemoteObs.present (sync_step t0 RemoteObs.missing (some none)) = some none)
    ∧ (∀ m : Nat, t1 ≤ m + graceSeconds →
        sync_step t1 RemoteObs.missing (some (some m)) = some (some t1))
    ∧ (∀ m : Nat, m + graceSeconds < t1 →
        sync_step t1 RemoteObs.missing (some (some m)) = none)
    ∧ sync_step t1 RemoteObs.err st = st
    ∧ sync_step t1 RemoteObs.present (some (some t0)) = some none
    ∧ ∀ obs : RemoteObs, sync_step t1 obs none = none := by
  refine ⟨?_, ?_, ?_, ?_, ?_, ?_⟩
  · intro _
    simp [sync_step]
  · intro m hm
    simp [sync_step, not_lt.mpr hm]
  · intro m hm
    simp [sync_step, hm]
  · cases st <;> simp [sync_step]
  · simp [sync_step]
  · intro obs
    simp [sync_step]

/-- Witness for C6 (amended) at concrete times: missing at hour 0 then present
at hour 1 survives with a cleared mark; missing at hour 0 then missing again at
hour 25 deletes the row. -/
theorem C6_reconciliation_hysteresis_witness :
    sync_step 3600 RemoteObs.present (sync_step 0 RemoteObs.missing (some none)) = some none
    ∧ sync_step 90000 RemoteObs.missing (some (some 0)) = none :=
  ⟨(C6_reconciliation_hysteresis 0 3600 (some none)).1 (by norm_num [graceSeconds]),
   (C6_reconciliation_hysteresis 0 90000 (some none)).2.2.1 0 (by norm_num [graceSeconds])⟩

/-- Substring test over character lists (Python `needle in haystack`). -/
def listHasInfix (needle : List Char) : List Char → Bool
  | [] => needle.isEmpty
  | c :: rest => if needle.isPrefixOf (c :: rest) then true else listHasInfix needle rest

/-- Python `needle in haystack` on strings. -/
def strHas (hay needle : String) : Bool := listHasInfix needle.data hay.data

/-- Shallow embedding of `handlers._classify_key_creation_error`
(handlers.py:164).  The `str(exc)` rendering and the
`request failed: <status> <detail>` regex are abstracted: the exception arrives
already decomposed into its optional extracted status and its detail text.
The mapping: a lowercase detail containing `username` together with one of the
taken-words maps to code A019; otherwise the extracted status (whether or not
it is a key of the `errors` table, both source branches yield it) and 400 when
no status was extracted.  The description comes from the `errors` code table —
that table lives in `shop_bot.config`, which is not under src/, so it is
passed as an explicit association list.  The detail is stripped and truncated
to 200 characters. -/
def _classify_key_creation_error (errors : List (String × String)) (status : Option String)
    (detail : String) : String × String × String :=
  let dl := pyLower detail
  let code :=
    if strHas dl "username" ∧
        (strHas dl "already" ∨ strHas dl "exists" ∨ strHas dl "occupied" ∨
         strHas dl "taken" ∨ strHas dl "занят")
    then "A019"
    else match status with
      | some s => s
      | none => "400"
  let description := (errors.lookup code).getD "неизвестная ошибка"
  let short0 := pyStrip detail
  let short := if 200 < short0.length then short0.take 200 ++ "..." else short0
  (code, description, short)

/-- The `action` field of a payment metadata blob.  The source dispatches on
the strings top_up / new / gift and treats anything else like extend (the
final `else` branch looks up the key to extend). -/
inductive Action where
  | top_up
  | new
  | gift
  | extend
  deriving Repr, DecidableEq

/-- One plan row as consumed by `process_successful_payment`
(`get_plan_by_id`): every field may be NULL in SQLite. -/
structure Plan where
  months : Option Int
  duration_days : Option Int
  traffic_limit_bytes : Option Int
  traffic_limit_strategy : Option String
  hwid_device_limit : Option Int
  deriving Repr, DecidableEq

/-- The payload returned by the Provisioning Client
(`remnawave_api.create_or_update_key_on_host`). -/
structure ProvResult where
  client_uuid : String
  expiry_timestamp_ms : Int
  connection_string : Option String
  traffic_limit_bytes : Option Int
  traffic_limit_strategy : Option String
  deriving Repr, DecidableEq

/-- Outcome of the provisioning call: an exception (already decomposed for
`_classify_key_creation_error`), or a returned value where none models the
empty/falsy response. -/
inductive ProvOutcome where
  | raised (status : Option String) (detail : String)
  | ok (result : Option ProvResult)
  deriving Repr, DecidableEq

/-- The payment metadata record handed to `process_successful_payment`
(handlers.py:5781), with the dynamic dict lookups pre-typed: user_id/price are
none when `int()`/`float()` on the raw value raises (the source then returns
through its ValueError/TypeError handler), the `_to_int` fields carry their
default 0, and the id fields model `metadata.get` results. -/
structure Meta where
  action : Action
  user_id : Option Int
  price : Option Rat
  months : Int
  key_id : Int
  host_name : String
  plan_id : Int
  duration_days_meta : Int
  customer_email : Option String
  payment_method : Option String
  payment_id_raw : Option String
  transaction_id_raw : Option String
  factory_bot_id : Int
  chat_id : Option Int
  message_id : Option Int
  promo_code : Option String

/-- The external collaborators and settings consulted during one fulfillment
run, frozen as oracles: plan lookup, generated key email, existing-key lookup
for extend, clocks, the provisioning outcome, repository write results,
balance-write results, referral data (the settings-driven reward formula is
abstracted into its resulting amount), admin ids, the error-code table, the
fallback franchise id, the generated gift uuid, and whether the promo
bookkeeping decides to deactivate the code. -/
structure Env where
  get_plan : Int → Option Plan
  generated_email : String
  key_email : Int → Option String
  key_expiry_ms : Int → Option Int
  now_ms : Int
  nowTick : Nat
  prov : ProvOutcome
  record_key_result : Int
  update_key_ok : Bool
  add_balance_ok : Int → Bool
  referred_by : Int → Option Int
  referral_reward : Rat
  admin_ids : List Int
  errorsTable : List (String × String)
  resolve_factory_bot_id : Int
  gift_uuid : String
  promo_disable : Bool

/-- The shared mutable state a fulfillment run touches: the fulfillment guard
set, the partner-commission table, and the pending ledger (written by the gift
branch). -/
structure OrchSt where
  guard : List String
  commissions : CommissionsDB
  pending : PendingDB

/-- The observable side effects of one fulfillment run, in execution order. -/
inductive Effect where
  | claimGuard (pid : String) (ok : Bool)
  | accrueCommission (bot_id : Int) (pid : String) (inserted : Bool)
  | deletePaymentMessage (chat_id msg_id : Int)
  | creditBalance (uid : Int) (amount : Rat) (ok : Bool)
  | creditReferralAll (uid : Int) (amount : Rat)
  | logTransaction (uid : Int) (amount : Rat)
  | sendMessage (uid : Int)
  | adminBroadcast
  | provisionCall (host : String) (email : Option String) (days : Int)
      (expiry : Option Int) (traffic : Option Int) (strategy : Option String)
      (hwid : Option Int)
  | writeCredential (uid : Int) (key_id : Int)
  | updateCredential (key_id : Int)
  | savePendingGift (uid : Int) (pid : String)
  | updateStats (uid : Int) (spent : Rat) (months : Int)
  | redeemPromo (code : String) (uid : Int)
  | disablePromo (code : String)
  | notifyUserError (uid : Int) (code : String) (refund : Bool)
  | notifyAdminsError (code description : String)
  | editMessage
  | deleteProcessingMessage
  | notifyAdminPurchase
  deriving Repr, DecidableEq

/-- Shallow embedding of `handlers._compute_days_to_add` (handlers.py:300):
a positive day count wins, otherwise months convert at 30 days per month
(`int(x or 0)` of the source is pre-applied by the typed signature). -/
def _compute_days_to_add (months : Int) (duration_days : Int) : Int :=
  if 0 < duration_days then duration_days else months * 30

/-- The days_to_add resolution chain of `process_successful_payment`
(handlers.py:6071): plan months/days first, then the metadata months/days,
then `months * 30` when months is non-zero, else the default 30. -/
def resolve_days_to_add (plan_months plan_days months duration_days_meta : Int) : Int :=
  let d1 := _compute_days_to_add plan_months plan_days
  if 0 < d1 then d1
  else
    let d2 := _compute_days_to_add months duration_days_meta
    if 0 < d2 then d2
    else if months ≠ 0 then months * 30 else 30

/-- Python truthiness of an optional integer field. -/
def pyTruthyInt (o : Option Int) : Bool :=
  match o with
  | some v => v ≠ 0
  | none => false

/-- The franchise id actually used: the metadata value when positive, else the
`resolve_factory_bot_id` lookup for the serving bot (handlers.py:5819). -/
def resolved_factory_bot_id (env : Env) (m : Meta) : Int :=
  if m.factory_bot_id ≤ 0 then env.resolve_factory_bot_id else m.factory_bot_id

/-- The franchise step of `process_successful_payment` (handlers.py:5828):
when a managed bot id is known, `rw_repo.accrue_partner_commission(fb, pid,
user, price, method, 35.0)` runs immediately after the claim — before any
action branch.  The rw_repo wrapper is not under src/; per the spec it is the
idempotent insert-if-absent of database.accrue_partner_commission, which is
what runs here. -/
def franchise_step (env : Env) (m : Meta) (pid : String) (uid : Int) (price : Rat)
    (st : OrchSt) : List Effect × OrchSt :=
  let fb := resolved_factory_bot_id env m
  if 0 < fb then
    let acc := accrue_partner_commission fb pid uid price m.payment_method (some 35) st.commissions
    ([Effect.accrueCommission fb pid acc.1], { st with commissions := acc.2 })
  else ([], st)

/-- Deleting the obsolete please-pay message (handlers.py:5841): only when the
metadata carries truthy chat and message ids. -/
def delete_pay_message_effects (m : Meta) : List Effect :=
  if pyTruthyInt m.chat_id ∧ pyTruthyInt m.message_id then
    [Effect.deletePaymentMessage (m.chat_id.getD 0) (m.message_id.getD 0)]
  else []

/-- The trace prefix every claimed run emits: the successful claim, the
franchise step, and the please-pay-message cleanup. -/
def claim_head (env : Env) (m : Meta) (pid : String) (uid : Int) (price : Rat)
    (st1 : OrchSt) : List Effect :=
  Effect.claimGuard pid true ::
    ((franchise_step env m pid uid price st1).1 ++ delete_pay_message_effects m)

/-- The referral-reward block shared by the top_up branch and the purchase
tail (handlers.py:5895 and 6216): skipped for stored-balance payments; when the
payer has a referrer and the configured reward (abstracted into
env.referral_reward) is positive, the referrer balance is credited, the
all-time referral balance incremented, and on success the referrer notified. -/
def referral_effects (env : Env) (uid : Int) (price : Rat) (pm : Option String) : List Effect :=
  let pmr := pyLower (pyStrip (pm.getD ""))
  if pmr = "balance" then []
  else
    match env.referred_by uid with
    | none => []
    | some rid =>
        if 0 < env.referral_reward then
          [Effect.creditBalance rid env.referral_reward (env.add_balance_ok rid),
           Effect.creditReferralAll rid env.referral_reward]
          ++ (if env.add_balance_ok rid then [Effect.sendMessage rid] else [])
        else []

/-- The top_up branch of `process_successful_payment` (handlers.py:5849):
credit the balance, log the transaction, run the referral block, notify the
payer (success or failure text), broadcast to admins, return. -/
def top_up_effects (env : Env) (uid : Int) (price : Rat) (pm : Option String) : List Effect :=
  [Effect.creditBalance uid price (env.add_balance_ok uid),
   Effect.logTransaction uid price]
  ++ referral_effects env uid price pm
  ++ [Effect.sendMessage uid, Effect.adminBroadcast]

/-- The failure path `_handle_key_creation_failure` (handlers.py:267) followed
by the "could not create the key" edit: classify the error, notify the payer
with the code and the refund promise, notify the admins (skipped when there
are none) with the code and the description, edit the processing message. -/
def key_failure_effects (env : Env) (uid : Int) (status : Option String)
    (detail : String) : List Effect :=
  let c := _classify_key_creation_error env.errorsTable status detail
  [Effect.notifyUserError uid c.1 true]
  ++ (if env.admin_ids.isEmpty then [] else [Effect.notifyAdminsError c.1 c.2.1])
  ++ [Effect.editMessage]

/-- Plan-based duration and limits resolution (handlers.py:6036): without a
plan the metadata months/days are used and no limits are sent; with a plan its
months/days (NULL as 0) are used, NULL limits become an explicit 0, negative
limits are clamped to 0, and the traffic strategy is dropped for unlimited
traffic and defaulted to NO_RESET otherwise. -/
structure ProvParams where
  plan_months : Int
  plan_days : Int
  traffic : Option Int
  strategy : Option String
  hwid : Option Int
  deriving Repr, DecidableEq

/-- Computes the `ProvParams` of a run (handlers.py:6036-6069). -/
def resolve_plan_limits (env : Env) (m : Meta) : ProvParams :=
  let plan := if m.plan_id ≠ 0 then env.get_plan m.plan_id else none
  match plan with
  | none =>
      { plan_months := m.months, plan_days := m.duration_days_meta,
        traffic := none, strategy := none, hwid := none }
  | some p =>
      let traffic1 := (some (p.traffic_limit_bytes.getD 0)).map fun t => if t < 0 then 0 else t
      let hwid1 := (some (p.hwid_device_limit.getD 0)).map fun h => if h < 0 then 0 else h
      let strategy1 : Option String :=
        match traffic1 with
        | none => none
        | some t =>
            if t = 0 then none
            else if p.traffic_limit_strategy.getD "" = "" then some "NO_RESET"
            else p.traffic_limit_strategy
      { plan_months := p.months.getD 0, plan_days := p.duration_days.getD 0,
        traffic := traffic1, strategy := strategy1, hwid := hwid1 }

/-- The absolute expiry sent for renewals (handlers.py:6095): extend from the
stored expiry when it is still in the future, else from now. -/
def provision_expiry (env : Env) (m : Meta) (days : Int) : Option Int :=
  if m.action = Action.extend ∧ m.key_id ≠ 0 then
    some (max ((env.key_expiry_ms m.key_id).getD 0) env.now_ms + days * 86400000)
  else none

/-- The provisioning call of a run, with its fully resolved parameters. -/
def provision_effect (env : Env) (m : Meta) (email : Option String) : Effect :=
  let pr := resolve_plan_limits env m
  let days := resolve_days_to_add pr.plan_months pr.plan_days m.months m.duration_days_meta
  Effect.provisionCall m.host_name email days (provision_expiry env m days)
    pr.traffic pr.strategy pr.hwid

/-- Months recorded in user stats (handlers.py:6289): the metadata months, or
the effective plan days rounded up to months. -/
def months_for_stats (m : Meta) (pr : ProvParams) : Int :=
  if 0 < m.months then m.months
  else
    let ed := _compute_days_to_add pr.plan_months pr.plan_days
    if 0 < ed then (ed + 29) / 30 else 0

/-- The promo-code block (handlers.py:6330): redeem when a code is present;
the usage-counter bookkeeping only mutates the local metadata dict, and its
decision to deactivate the code is abstracted into env.promo_disable. -/
def promo_effects (env : Env) (m : Meta) (uid : Int) : List Effect :=
  let code := pyStrip (m.promo_code.getD "")
  if code = "" then []
  else
    [Effect.redeemPromo code uid]
    ++ (if env.promo_disable then [Effect.disablePromo code] else [])

/-- The bookkeeping tail of a successful key run (handlers.py:6216-6435):
referral block, stats update, transaction log, promo block, delete the
processing message, send the success message, notify the admin. -/
def purchase_tail (env : Env) (m : Meta) (uid : Int) (price : Rat) (pr : ProvParams) : List Effect :=
  referral_effects env uid price m.payment_method
  ++ [Effect.updateStats uid
        (if pyLower (pyStrip (m.payment_method.getD "")) = "balance" then 0 else price)
        (months_for_stats m pr),
      Effect.logTransaction uid price]
  ++ promo_effects env m uid
  ++ [Effect.deleteProcessingMessage, Effect.sendMessage uid, Effect.notifyAdminPurchase]

/-- The pending-gift metadata blob written by the gift branch
(handlers.py:6179); `json.dumps` is abstracted into a field-separated
rendering. -/
def gift_pending_meta (uid : Int) (host : String) (months dur days : Int) (price : Rat)
    (pid : String) : String :=
  "gift|" ++ toString uid ++ "|" ++ host ++ "|" ++ toString months ++ "|"
    ++ toString dur ++ "|" ++ toString days ++ "|" ++ toString price ++ "|" ++ pid

/-- The provisioning branch of `process_successful_payment` (handlers.py:6000
onward), entered for every non-top_up action after the processing message was
sent.  `acc` is the trace emitted so far.  The provisioning call either raises
(failure path for every action), returns an empty result (failure path unless
the action is gift), or succeeds: new records the key row (aborting when the
write fails), gift stores a recoverable pending-gift record in the pending
ledger and stops, extend updates the key row (aborting when the write fails);
the surviving paths run the bookkeeping tail. -/
def key_flow (env : Env) (m : Meta) (uid : Int) (price : Rat)
    (candidate_email : Option String) (acc : List Effect) (st : OrchSt) :
    List Effect × OrchSt :=
  let pr := resolve_plan_limits env m
  let days := resolve_days_to_add pr.plan_months pr.plan_days m.months m.duration_days_meta
  let acc2 := acc ++ [provision_effect env m candidate_email]
  match env.prov with
  | ProvOutcome.raised status detail =>
      (acc2 ++ key_failure_effects env uid status detail, st)
  | ProvOutcome.ok result =>
      if m.action ≠ Action.gift ∧ result = none then
        (acc2 ++ key_failure_effects env uid none "key creation returned empty response", st)
      else
        match m.action with
        | Action.new =>
            let kid := env.record_key_result
            let acc3 := acc2 ++ [Effect.writeCredential uid kid]
            if kid = 0 then (acc3 ++ [Effect.editMessage], st)
            else (acc3 ++ purchase_tail env m uid price pr, st)
        | Action.gift =>
            let raw := m.payment_id_raw.getD ""
            let gpid := if raw = "" then "GIFT-" ++ env.gift_uuid else raw
            let metaStr := gift_pending_meta uid m.host_name pr.plan_months pr.plan_days days price gpid
            let cr := create_payload_pending gpid uid (some price) metaStr env.nowTick st.pending
            (acc2 ++ [Effect.savePendingGift uid gpid, Effect.editMessage],
             { st with pending := cr.2 })
        | Action.extend =>
            let acc3 := acc2 ++ [Effect.updateCredential m.key_id]
            if env.update_key_ok then (acc3 ++ purchase_tail env m uid price pr, st)
            else (acc3 ++ [Effect.editMessage], st)
        | Action.top_up => (acc2, st)

/-- Shallow embedding of `handlers.process_successful_payment`
(handlers.py:5781), producing the trace of observable effects and the new
shared state.  Source order: parse user/price (a ValueError/TypeError returns
with nothing done), take payment_id or transaction_id, refuse an empty id,
call the fulfillment guard and stop on a duplicate, run the franchise
commission step, delete the please-pay message, then dispatch: top_up credits
the balance, every other action sends the processing message and enters the
provisioning branch (extend first aborts when the key to extend is missing or
has no email — the dispatcher treats every unknown action string like extend,
hence the four-constructor Action type). -/
def process_successful_payment (env : Env) (m : Meta) (st : OrchSt) :
    List Effect × OrchSt :=
  match m.user_id, m.price with
  | some uid, some price =>
      let pid := pyStrip (pyOrStr m.payment_id_raw m.transaction_id_raw)
      if pid = "" then ([], st)
      else
        let cl := claim_core pid st.guard
        if cl.1 = false then ([Effect.claimGuard pid false], st)
        else
          let st1 : OrchSt := { st with guard := cl.2 }
          let fr := franchise_step env m pid uid price st1
          let head := claim_head env m pid uid price st1
          match m.action with
          | Action.top_up => (head ++ top_up_effects env uid price m.payment_method, fr.2)
          | Action.new =>
              key_flow env m uid price (some env.generated_email)
                (head ++ [Effect.sendMessage uid]) fr.2
          | Action.gift =>
              key_flow env m uid price none (head ++ [Effect.sendMessage uid]) fr.2
          | Action.extend =>
              let em := (env.key_email m.key_id).getD ""
              if em = "" then (head ++ [Effect.sendMessage uid, Effect.editMessage], fr.2)
              else key_flow env m uid price (some em) (head ++ [Effect.sendMessage uid]) fr.2
  | _, _ => ([], st)

/-- C2 (duplicate fulfillment is a no-op): when the payment id of the metadata
is already in the processed-payments set — i.e. `claim_processed_payment`
returns false — `process_successful_payment` returns immediately: its trace is
exactly the failed guard check (no balance credit, no provisioning call, no
credential write, no commission accrual, no promo redemption, no user
notification, since the trace contains no other effect) and the shared state
is unchanged. -/
theorem C2_duplicate_fulfillment_noop (env : Env) (m : Meta) (st : OrchSt)
    (uid : Int) (price : Rat)
    (hu : m.user_id = some uid) (hp : m.price = some price)
    (hpid : pyStrip (pyOrStr m.payment_id_raw m.transaction_id_raw) ≠ "")
    (hdup : pyStrip (pyOrStr m.payment_id_raw m.transaction_id_raw) ∈ st.guard) :
    process_successful_payment env m st
      = ([Effect.claimGuard (pyStrip (pyOrStr m.payment_id_raw m.transaction_id_raw)) false], st) := by
  unfold process_successful_payment
  rw [hu, hp]
  simp [claim_core, hpid, hdup]

def env0 : Env :=
  { get_plan := fun _ => none, generated_email := "7-0@bot.local",
    key_email := fun _ => none, key_expiry_ms := fun _ => none,
    now_ms := 0, nowTick := 0,
    prov := ProvOutcome.raised none "upstream boom",
    record_key_result := 1, update_key_ok := true,
    add_balance_ok := fun _ => true, referred_by := fun _ => none,
    referral_reward := 0, admin_ids := [1], errorsTable := [],
    resolve_factory_bot_id := 0, gift_uuid := "g1", promo_disable := false }

def m0 : Meta :=
  { action := Action.new, user_id := some 7, price := some 100,
    months := 1, key_id := 0, host_name := "h1", plan_id := 0,
    duration_days_meta := 0, customer_email := none,
    payment_method := some "yookassa", payment_id_raw := some "p5",
    transaction_id_raw := none, factory_bot_id := 1,
    chat_id := none, message_id := none, promo_code := none }

def st0 : OrchSt := { guard := [], commissions := [], pending := fun _ => none }

def stDup : OrchSt := { guard := ["p5"], commissions := [], pending := fun _ => none }

/-- Witness for C2: redelivering the already-claimed payment p5 produces only
the failed guard check and leaves the state untouched. -/
theorem C2_duplicate_fulfillment_noop_witness :
    process_successful_payment env0 m0 stDup = ([Effect.claimGuard "p5" false], stDup) := by
  have hps : pyStrip (pyOrStr m0.payment_id_raw m0.transaction_id_raw) = "p5" := by decide
  have h := C2_duplicate_fulfillment_noop env0 m0 stDup 7 100 rfl rfl
    (by rw [hps]; decide) (by rw [hps]; exact List.mem_singleton.mpr rfl)
  rw [hps] at h
  exact h

/-- C8 (duration resolution): in the resolution chain used for every
new/gift/extend provisioning call, a positive plan day count wins outright; a
non-positive plan day count with a positive plan month count converts at 30
days per month; with neither, the metadata day count wins when positive, and
otherwise a positive metadata month count converts at 30 days per month. -/
theorem C8_duration_resolution (pm pd mm dd : Int) :
    (0 < pd → resolve_days_to_add pm pd mm dd = pd)
    ∧ (pd ≤ 0 → 0 < pm → resolve_days_to_add pm pd mm dd = pm * 30)
    ∧ (pd ≤ 0 → pm ≤ 0 → 0 < dd → resolve_days_to_add pm pd mm dd = dd)
    ∧ (pd ≤ 0 → pm ≤ 0 → dd ≤ 0 → 0 < mm → resolve_days_to_add pm pd mm dd = mm * 30) := by
  refine ⟨?_, ?_, ?_, ?_⟩
  · intro h
    unfold resolve_days_to_add _compute_days_to_add
    simp [h]
  · intro hpd hpm
    unfold resolve_days_to_add _compute_days_to_add
    have h30 : 0 < pm * 30 := by positivity
    simp [not_lt.mpr hpd, h30]
  · intro hpd hpm hdd
    unfold resolve_days_to_add _compute_days_to_add
    have h30 : ¬ 0 < pm * 30 := not_lt.mpr (by nlinarith)
    simp [not_lt.mpr hpd, h30, hdd]
  · intro hpd hpm hdd hmm
    unfold resolve_days_to_add _compute_days_to_add
    have h30 : ¬ 0 < pm * 30 := not_lt.mpr (by nlinarith)
    have h30m : 0 < mm * 30 := by positivity
    simp [not_lt.mpr hpd, h30, not_lt.mpr hdd, h30m]

/-- Witness for C8: 45 plan days beat 2 plan months; 2 plan months give 60
days; metadata 7 days win next; metadata 5 months give 150 days. -/
theorem C8_duration_resolution_witness :
    resolve_days_to_add 2 45 5 7 = 45
    ∧ resolve_days_to_add 2 0 5 7 = 60
    ∧ resolve_days_to_add 0 0 5 7 = 7
    ∧ resolve_days_to_add 0 0 5 0 = 150 :=
  ⟨(C8_duration_resolution 2 45 5 7).1 (by norm_num),
   (C8_duration_resolution 2 0 5 7).2.1 (by norm_num) (by norm_num),
   (C8_duration_resolution 0 0 5 7).2.2.1 (by norm_num) (by norm_num) (by norm_num),
   (C8_duration_resolution 0 0 5 0).2.2.2 (by norm_num) (by norm_num) (by norm_num) (by norm_num)⟩

/-- The effects the provisioning-failure path must not contain: credential-row
writes and the money-moving bookkeeping of the fulfillment tail. -/
def spends_or_writes : Effect → Bool
  | Effect.writeCredential _ _ => true
  | Effect.updateCredential _ => true
  | Effect.creditBalance _ _ _ => true
  | Effect.creditReferralAll _ _ => true
  | Effect.updateStats _ _ _ => true
  | Effect.redeemPromo _ _ => true
  | Effect.disablePromo _ => true
  | Effect.savePendingGift _ _ => true
  | _ => false

theorem franchise_step_spends_free (env : Env) (m : Meta) (pid : String) (uid : Int)
    (price : Rat) (st : OrchSt) :
    ∀ e ∈ (franchise_step env m pid uid price st).1, spends_or_writes e = false := by
  intro e he
  unfold franchise_step at he
  by_cases h : 0 < resolved_factory_bot_id env m
  · simp [h] at he
    subst he
    rfl
  · simp [h] at he

theorem delete_effects_spends_free (m : Meta) :
    ∀ e ∈ delete_pay_message_effects m, spends_or_writes e = false := by
  intro e he
  unfold delete_pay_message_effects at he
  by_cases h : pyTruthyInt m.chat_id ∧ pyTruthyInt m.message_id
  · simp [h] at he
    subst he
    rfl
  · simp [h] at he

theorem claim_head_spends_free (env : Env) (m : Meta) (pid : String) (uid : Int)
    (price : Rat) (st : OrchSt) :
    ∀ e ∈ claim_head env m pid uid price st, spends_or_writes e = false := by
  intro e he
  unfold claim_head at he
  rcases List.mem_cons.mp he with rfl | he2
  · rfl
  · rcases List.mem_append.mp he2 with h3 | h3
    · exact franchise_step_spends_free env m pid uid price st e h3
    · exact delete_effects_spends_free m e h3

theorem key_failure_spends_free (env : Env) (uid : Int) (status : Option String)
    (detail : String) :
    ∀ e ∈ key_failure_effects env uid status detail, spends_or_writes e = false := by
  intro e he
  unfold key_failure_effects at he
  by_cases h : env.admin_ids.isEmpty
  · simp [h] at he
    rcases he with rfl | rfl <;> rfl
  · simp [h] at he
    rcases he with rfl | rfl | rfl <;> rfl

theorem franchise_step_pending (env : Env) (m : Meta) (pid : String) (uid : Int)
    (price : Rat) (st : OrchSt) :
    ((franchise_step env m pid uid price st).2).pending = st.pending := by
  unfold franchise_step
  by_cases h : 0 < resolved_factory_bot_id env m <;> simp [h]

/-- C5 (amended, provisioning-failure handling): in a fulfillment run with
action new or extend whose provisioning call fails (raises, or returns an
empty result), no credential row is written and none of the money-moving
bookkeeping of the fulfillment tail runs (no balance credit, no referral
payout, no stats update, no promo redemption) — the partner-commission
accrual is the exception, since it runs before the provisioning call; the
payer is notified with the classified short error code and the refund flag,
operators are notified with the code and its description, and the pending
ledger is untouched. -/
theorem C5_provisioning_failure_handling (env : Env) (m : Meta) (st : OrchSt)
    (uid : Int) (price : Rat) (fstatus : Option String) (fdetail : String)
    (hu : m.user_id = some uid) (hp : m.price = some price)
    (hpid : pyStrip (pyOrStr m.payment_id_raw m.transaction_id_raw) ≠ "")
    (hnew : pyStrip (pyOrStr m.payment_id_raw m.transaction_id_raw) ∉ st.guard)
    (haction : m.action = Action.new ∨ m.action = Action.extend)
    (hext : m.action = Action.extend → (env.key_email m.key_id).getD "" ≠ "")
    (hfail : env.prov = ProvOutcome.raised fstatus fdetail
             ∨ (env.prov = ProvOutcome.ok none ∧ fstatus = none
                ∧ fdetail = "key creation returned empty response"))
    (hadm : env.admin_ids ≠ []) :
    (∀ e ∈ (process_successful_payment env m st).1, spends_or_writes e = false)
    ∧ Effect.notifyUserError uid
        (_classify_key_creation_error env.errorsTable fstatus fdetail).1 true
        ∈ (process_successful_payment env m st).1
    ∧ Effect.notifyAdminsError
        (_classify_key_creation_error env.errorsTable fstatus fdetail).1
        (_classify_key_creation_error env.errorsTable fstatus fdetail).2.1
        ∈ (process_successful_payment env m st).1
    ∧ (process_successful_payment env m st).2.pending = st.pending := by
  set pid := pyStrip (pyOrStr m.payment_id_raw m.transaction_id_raw) with hpiddef
  set st1 : OrchSt := { st with guard := pid :: st.guard } with hst1
  obtain ⟨email, hproc⟩ : ∃ email, process_successful_payment env m st =
      (claim_head env m pid uid price st1 ++ [Effect.sendMessage uid]
        ++ [provision_effect env m email]
        ++ key_failure_effects env uid fstatus fdetail,
       (franchise_step env m pid uid price st1).2) := by
    have hcl : claim_core pid st.guard = (true, pid :: st.guard) := by
      unfold claim_core
      simp [hpid, hnew]
    rcases haction with hact | hact
    · refine ⟨some env.generated_email, ?_⟩
      unfold process_successful_payment
      rw [hu, hp]
      rcases hfail with hraise | ⟨hok, hfs, hfd⟩
      · simp [hpid, hcl, hact, key_flow, hraise, hst1]
      · subst hfs
        subst hfd
        simp [hpid, hcl, hact, key_flow, hok, hst1]
    · refine ⟨some ((env.key_email m.key_id).getD ""), ?_⟩
      have hem := hext hact
      unfold process_successful_payment
      rw [hu, hp]
      rcases hfail with hraise | ⟨hok, hfs, hfd⟩
      · simp [hpid, hcl, hact, hem, key_flow, hraise, hst1]
      · subst hfs
        subst hfd
        simp [hpid, hcl, hact, hem, key_flow, hok, hst1]
  rw [hproc]
  refine ⟨?_, ?_, ?_, ?_⟩
  · intro e he
    rcases List.mem_append.mp he with h1 | h1
    · rcases List.mem_append.mp h1 with h2 | h2
      · rcases List.mem_append.mp h2 with h3 | h3
        · exact claim_head_spends_free env m pid uid price st1 e h3
        · rcases List.mem_singleton.mp h3 with rfl
          rfl
      · rcases List.mem_singleton.mp h2 with rfl
        simp [provision_effect, spends_or_writes]
    · exact key_failure_spends_free env uid fstatus fdetail e h1
  · apply List.mem_append.mpr
    right
    unfold key_failure_effects
    simp
  · apply List.mem_append.mpr
    right
    unfold key_failure_effects
    have : env.admin_ids.isEmpty = false := by
      simpa [List.isEmpty_iff] using hadm
    simp [this]
  · exact franchise_step_pending env m pid uid price st1

/-- Witness for C5 (amended) at a concrete failing run: the payer is notified
with code 400 and the refund flag, the admins are notified, no trace effect
writes a credential or moves the later bookkeeping money, and the pending
ledger is untouched. -/
theorem C5_provisioning_failure_handling_witness :
    (∀ e ∈ (process_successful_payment env0 m0 st0).1, spends_or_writes e = false)
    ∧ Effect.notifyUserError 7
        (_classify_key_creation_error env0.errorsTable none "upstream boom").1 true
        ∈ (process_successful_payment env0 m0 st0).1
    ∧ (process_successful_payment env0 m0 st0).2.pending = st0.pending := by
  have h := C5_provisioning_failure_handling env0 m0 st0 7 100 none "upstream boom"
    rfl rfl (by decide) (by decide) (Or.inl rfl)
    (fun hx => absurd hx (by decide)) (Or.inl rfl) (by decide)
  exact ⟨h.1, h.2.1, h.2.2.2⟩

/-- C5 counterexample: a new-action run through a managed clone bot (franchise
id 1, card method yookassa, price 100) whose provisioning call raises.  The
payer is indeed notified of the failure, but the run has already performed a
money-moving side effect: the partner commission for (1, p5) was accrued —
inserted into the commission table — before the provisioning call, so the
claim that such a run performs no money-moving side effect is false. -/
theorem C5_counterexample :
    env0.prov = ProvOutcome.raised none "upstream boom"
    ∧ Effect.accrueCommission 1 "p5" true ∈ (process_successful_payment env0 m0 st0).1
    ∧ Effect.notifyUserError 7 "400" true ∈ (process_successful_payment env0 m0 st0).1
    ∧ (process_successful_payment env0 m0 st0).2.commissions = [(1, "p5")] := by
  have hps : pyStrip (pyOrStr (some "p5") none) = "p5" := by decide
  have hcl : claim_core "p5" ([] : List String) = (true, ["p5"]) := by decide
  have hcard : _is_card_payment_method (some "yookassa") = true := by decide
  have hp5 : pyStrip "p5" = "p5" := by decide
  have hround : round2 (35 : Rat) = 35 := by
    unfold round2
    rw [show (35 : Rat) * 100 = ((3500 : Int) : Rat) by norm_num]
    rw [round_intCast]
    norm_num
  have hacc : accrue_partner_commission 1 "p5" 7 100 (some "yookassa") (some 35) [] =
      (true, [(1, "p5")]) := by
    unfold accrue_partner_commission
    norm_num [hcard, hp5, FRANCHISE_PERCENT_DEFAULT]
    rw [if_neg (show ¬ ("p5" : String) = "" by decide)]
    rw [hround]
    norm_num
  have hfr : franchise_step env0 m0 "p5" 7 100
      { guard := ["p5"], commissions := [], pending := fun _ => none } =
      ([Effect.accrueCommission 1 "p5" true],
       { guard := ["p5"], commissions := [(1, "p5")], pending := fun _ => none }) := by
    unfold franchise_step resolved_factory_bot_id
    norm_num [show m0.factory_bot_id = 1 from rfl, show m0.payment_method = some "yookassa" from rfl,
      hacc]
  have hclass : _classify_key_creation_error ([] : List (String × String)) none "upstream boom"
      = ("400", "неизвестная ошибка", "upstream boom") := by decide
  have hproc : process_successful_payment env0 m0 st0 =
      (claim_head env0 m0 "p5" 7 100
          { guard := ["p5"], commissions := [], pending := fun _ => none }
        ++ [Effect.sendMessage 7]
        ++ [provision_effect env0 m0 (some "7-0@bot.local")]
        ++ key_failure_effects env0 7 none "upstream boom",
       { guard := ["p5"], commissions := [(1, "p5")], pending := fun _ => none }) := by
    unfold process_successful_payment
    simp [show m0.user_id = some 7 from rfl, show m0.price = some (100 : Rat) from rfl,
      show m0.payment_id_raw = some "p5" from rfl, show m0.transaction_id_raw = none from rfl,
      show m0.action = Action.new from rfl, hps, hcl, key_flow,
      show env0.prov = ProvOutcome.raised none "upstream boom" from rfl,
      show env0.generated_email = "7-0@bot.local" from rfl, hfr, st0]
  refine ⟨rfl, ?_, ?_, ?_⟩
  · rw [hproc]
    simp [claim_head, hfr]
  · rw [hproc]
    simp [key_failure_effects, hclass,
      show env0.errorsTable = ([] : List (String × String)) from rfl,
      show env0.admin_ids = [1] from rfl]
  · rw [hproc]

end ShopBot
